import Mathlib

/-
  Verification development for the Tello_Drone repository.

  Shallow embedding of the control and telemetry protocol layer:
  the command channel of src/drone.py (TelloController._send_command) and
  src/tello_lib/command_handler.py (CommandHandler), the flight operations of
  src/tello_lib/controller.py (TelloController), the video health state
  machine of src/tello_lib/video.py (VideoStream._video_loop), and the
  telemetry field table of src/tello_lib/controller.py (STATUS_UPDATES).

  Python exceptions are modelled with Except, machine replies with
  Option String, floats occurring in telemetry with Rat, and the
  non-reentrant threading.Lock with an explicit holder state.
-/

/-- DroneState enumeration from src/tello_lib/models.py. -/
inductive DroneState
  | DISCONNECTED
  | CONNECTED
  | FLYING
  | FLYING_UNSTABLE
  | LANDED
  | ERROR
  deriving DecidableEq

/-- VideoStreamState enumeration from src/tello_lib/models.py. -/
inductive VideoStreamState
  | DISCONNECTED
  | INITIALIZING
  | STREAMING
  | ERROR
  deriving DecidableEq

/-- Python exceptions raised by the embedded code paths. -/
inductive PyExn
  | valueError
  | commandError (msg : Option String)
  | runtimeError
  deriving DecidableEq

/-- Observable lifecycle of a Python threading.Thread: created but never
started, started and still running its loop, or finished. -/
inductive ThreadSt
  | notStarted
  | running
  | finished
  deriving DecidableEq

/-- Returns true while the thread loop is still executing, mirroring
threading.Thread.is_alive. -/
def threadIsAlive : ThreadSt → Bool
  | ThreadSt.running => true
  | _ => false

/-- Thread.join: joining a never-started thread raises RuntimeError in
Python; joining a running loop that polls the (already cleared) running flag
returns once the loop exits, leaving the thread finished. -/
def threadJoin : ThreadSt → Except PyExn ThreadSt
  | ThreadSt.notStarted => Except.error PyExn.runtimeError
  | _ => Except.ok ThreadSt.finished

/-- Guarded join used by the stop methods: join only when the thread object
exists and is_alive() is true. -/
def joinIfAlive : Option ThreadSt → Except PyExn (Option ThreadSt)
  | none => Except.ok none
  | some t =>
    if threadIsAlive t then (threadJoin t).map some else Except.ok (some t)

/-- List-of-characters test that pat occurs at the start of hay. -/
def charsStartWith : List Char → List Char → Bool
  | _, [] => true
  | [], _ :: _ => false
  | h :: hs, p :: ps => h = p && charsStartWith hs ps

/-- List-of-characters test that pat occurs somewhere inside hay. -/
def charsContain : List Char → List Char → Bool
  | [], pat => pat.isEmpty
  | hay@(_ :: hs), pat => charsStartWith hay pat || charsContain hs pat

/-- Model of the Python substring test pat in hay. -/
def strContains (hay pat : String) : Bool :=
  charsContain hay.data pat.data

/-- Numeric value of a list of decimal digit characters. -/
def digitsToNat (cs : List Char) : Nat :=
  cs.foldl (fun a c => a * 10 + (c.toNat - 48)) 0

/-- Model of the Python builtin int applied to a string: an optional sign
followed by a nonempty run of decimal digits; anything else raises
ValueError, modelled as none. -/
def parsePyInt (s : String) : Option Int :=
  let core : List Char → Option Nat := fun cs =>
    if cs ≠ [] ∧ cs.all Char.isDigit then some (digitsToNat cs) else none
  match s.data with
  | '-' :: rest => (core rest).map (fun n => -(n : Int))
  | '+' :: rest => (core rest).map (fun n => (n : Int))
  | rest => (core rest).map (fun n => (n : Int))

/-- Model of the Python builtin float applied to a string, restricted to the
plain decimal shapes the drone emits: optional sign, then digits with at most
one decimal point and at least one digit overall. Other inputs raise
ValueError, modelled as none. -/
def parsePyFloat (s : String) : Option Rat :=
  let core : List Char → Option Rat := fun cs =>
    match cs.splitOn '.' with
    | [ip] =>
      if ip ≠ [] ∧ ip.all Char.isDigit then some ((digitsToNat ip : Int) : Rat)
      else none
    | [ip, fp] =>
      if (ip ≠ [] ∨ fp ≠ []) ∧ ip.all Char.isDigit ∧ fp.all Char.isDigit then
        some (((digitsToNat ip : Int) : Rat) +
          ((digitsToNat fp : Int) : Rat) / ((10 : Rat) ^ fp.length))
      else none
    | _ => none
  match s.data with
  | '-' :: rest => (core rest).map (fun q => -q)
  | '+' :: rest => core rest
  | rest => core rest

/-- Model of the Python builtin int applied to a float: truncation toward
zero. -/
def pyIntOfRat (q : Rat) : Int :=
  if q.num < 0 then -(((-q.num).toNat / q.den : Nat) : Int)
  else ((q.num.toNat / q.den : Nat) : Int)

/-- Characters kept by the numeric filter in the parsers of
src/drone.py and src/tello_lib/controller.py: digits and the decimal
point. -/
def keepNumericChars (s : String) : String :=
  String.mk (s.data.filter (fun c => c.isDigit || c = '.'))

/-- TelloController._parse_height from src/drone.py lines 178-197: filter the
reply down to digits and dots, convert decimeters to centimeters when the
original reply mentions dm, return 0 on any parse failure. -/
def parse_height (height_str : String) : Int :=
  match parsePyFloat (keepNumericChars height_str) with
  | none => 0
  | some q =>
    if strContains height_str "dm" then pyIntOfRat (q * 10)
    else pyIntOfRat q

/-- Frame events consumed by one iteration of VideoStream._video_loop in
src/tello_lib/video.py: a valid decoded frame, an invalid or missing frame
(with the watchdog flag recording whether more than frame_timeout seconds
passed since the last valid frame), or an exception inside the loop body. -/
inductive FrameEvent
  | valid
  | invalid (timedOut : Bool)
  | exn

/-- One iteration of VideoStream._video_loop (src/tello_lib/video.py lines
81-127) acting on the health state and the _consecutive_valid_frames counter.
The Bool result records whether the loop continues (false on the break
statements). The counter is an Int and the floor at 0 is the explicit
max 0 from the source. -/
def videoLoopStep (threshold : Nat) (st : VideoStreamState) (c : Int) :
    FrameEvent → (VideoStreamState × Int) × Bool
  | FrameEvent.valid =>
    match st with
    | VideoStreamState.INITIALIZING =>
      if c + 1 ≥ (threshold : Int) then ((VideoStreamState.STREAMING, c + 1), true)
      else ((VideoStreamState.INITIALIZING, c + 1), true)
    | VideoStreamState.STREAMING =>
      ((VideoStreamState.STREAMING, min (c + 1) ((threshold : Int) + 10)), true)
    | s => ((s, c), true)
  | FrameEvent.invalid timedOut =>
    if timedOut then ((VideoStreamState.ERROR, c), false)
    else
      let c' := max 0 (c - 2)
      if st = VideoStreamState.STREAMING ∧ c' < (threshold : Int) then
        ((VideoStreamState.ERROR, c'), true)
      else ((st, c'), true)
  | FrameEvent.exn => ((VideoStreamState.ERROR, c), false)

/-- Run of the video capture loop over a list of frame events, stopping early
on a break. -/
def videoLoopRun (threshold : Nat) (st : VideoStreamState) (c : Int) :
    List FrameEvent → VideoStreamState × Int
  | [] => (st, c)
  | e :: es =>
    match videoLoopStep threshold st c e with
    | (sc, true) => videoLoopRun threshold sc.1 sc.2 es
    | (sc, false) => sc

/-- VideoStream.start reset (src/tello_lib/video.py lines 38-45): only a
disconnected stream may start; the state becomes INITIALIZING and the
validity counter is reset to 0. -/
def videoStartReset (st : VideoStreamState) (_c : Int) :
    Option (VideoStreamState × Int) :=
  if st = VideoStreamState.DISCONNECTED then some (VideoStreamState.INITIALIZING, 0)
  else none

/-- Counter invariant of the video health monitor: the validity counter is
within [0, threshold + 10], and while the state is INITIALIZING it never
exceeds the threshold. -/
def VideoCounterInv (threshold : Nat) (st : VideoStreamState) (c : Int) : Prop :=
  0 ≤ c ∧ c ≤ (threshold : Int) + 10 ∧
    (st = VideoStreamState.INITIALIZING → c ≤ (threshold : Int))

/-- Resource view of a VideoStream object from src/tello_lib/video.py:
whether a capture handle is open, the running flag, the capture thread, the
last stored frame slot, and the health state. -/
structure VideoStream where
  cap_open : Bool
  running : Bool
  thread : Option ThreadSt
  last_frame : Option Unit
  state : VideoStreamState

/-- VideoStream.stop from src/tello_lib/video.py lines 144-154: clear the
running flag, join the capture thread when it is alive, release the capture
handle, clear the frame slot, and reset the health state to DISCONNECTED. -/
def VideoStream.stop (v : VideoStream) : Except PyExn VideoStream :=
  let v1 : VideoStream := { v with running := false }
  match joinIfAlive v1.thread with
  | Except.error e => Except.error e
  | Except.ok th =>
    Except.ok { v1 with
                thread := th, cap_open := false, last_frame := none,
                state := VideoStreamState.DISCONNECTED }

/-- Resource view of a CommandHandler object from
src/tello_lib/command_handler.py: the running flag, the keep-alive ping
thread, and the command socket. -/
structure CommandHandlerSt where
  running : Bool
  ping_thread : Option ThreadSt
  socket_open : Bool

/-- CommandHandler.stop from src/tello_lib/command_handler.py lines 109-115:
clear the running flag, join the ping thread when alive, close the command
socket (closing an already closed socket is a no-op in Python). -/
def CommandHandler.stop (h : CommandHandlerSt) : Except PyExn CommandHandlerSt :=
  let h1 : CommandHandlerSt := { h with running := false }
  match joinIfAlive h1.ping_thread with
  | Except.error e => Except.error e
  | Except.ok th =>
    Except.ok { h1 with ping_thread := th, socket_open := false }

/-- Resource view of a TelloController object from
src/tello_lib/controller.py as far as disconnect touches it. -/
structure TelloControllerSt where
  running : Bool
  status_thread : ThreadSt
  video : VideoStream
  handler : CommandHandlerSt
  status_socket_open : Bool
  state : DroneState

/-- TelloController.disconnect from src/tello_lib/controller.py lines 95-112:
stop status monitoring (joining the status loop, which exits because it polls
the cleared running flag with a 1 second socket timeout), stop the video
stream and the command handler, close the status socket, set the drone state
to DISCONNECTED and return True; any exception is caught and False is
returned instead. -/
def TelloController.disconnect (c : TelloControllerSt) : Bool × TelloControllerSt :=
  let c1 : TelloControllerSt := { c with running := false }
  let joinedStatus :=
    if threadIsAlive c1.status_thread then ThreadSt.finished else c1.status_thread
  let c2 : TelloControllerSt := { c1 with status_thread := joinedStatus }
  match VideoStream.stop c2.video, CommandHandler.stop c2.handler with
  | Except.ok v', Except.ok h' =>
    (true, { c2 with
             video := v', handler := h', status_socket_open := false,
             state := DroneState.DISCONNECTED })
  | _, _ => (false, c2)

/-- Direction tokens accepted by TelloController.move. -/
def moveDirections : List String :=
  ["up", "down", "left", "right", "forward", "back"]

/-- Direction tokens accepted by TelloController.rotate. -/
def rotateDirections : List String :=
  ["cw", "ccw"]

/-- The IMU warning reply text tested for by the controller. -/
def imuWarning : String := "error No valid imu"

/-- TelloController.takeoff from src/tello_lib/controller.py lines 207-243.
Inputs: the current drone state, the command channel reply (none models a
send_command that returned None after exhausting its retries), and the stream
of successive get_height readings (get_height returns the telemetry altitude
field; alt n is the n-th reading taken during this call). A state other than
CONNECTED raises CommandError, which the except TakeoffError clause does not
catch, so it escapes the call. After an ok or IMU-warning reply the code
sleeps 2 seconds and verifies that the altitude exceeds MIN_ALTITUDE = 10
before committing to FLYING (or FLYING_UNSTABLE on the IMU warning); every
TakeoffError is caught and answered with one more altitude re-check. -/
def TelloController.takeoff (st : DroneState) (reply : Option String)
    (alt : Nat → Int) : Except PyExn (Bool × DroneState) :=
  if st ≠ DroneState.CONNECTED then
    Except.error (PyExn.commandError (some "Drone must be connected before takeoff"))
  else
    match reply with
    | none =>
      -- TakeoffError("No response received") caught: re-check altitude
      if 10 < alt 0 then Except.ok (true, DroneState.FLYING)
      else Except.ok (false, st)
    | some r =>
      if r = "ok" ∨ strContains r imuWarning then
        -- settle sleep of 2 seconds, then verify the altitude
        if 10 < alt 0 then
          if strContains r imuWarning then
            Except.ok (true, DroneState.FLYING_UNSTABLE)
          else Except.ok (true, DroneState.FLYING)
        else
          -- TakeoffError("Failed to gain altitude") caught: re-check altitude
          if 10 < alt 1 then Except.ok (true, DroneState.FLYING)
          else Except.ok (false, st)
      else
        -- TakeoffError("Unexpected response") caught: re-check altitude
        if 10 < alt 0 then Except.ok (true, DroneState.FLYING)
        else Except.ok (false, st)

/-- TelloController.move from src/tello_lib/controller.py lines 279-309.
The result pairs the Python outcome (a returned Bool, or an escaping
ValueError raised by the argument validation that precedes the try block)
with the list of command texts handed to the command channel. The reply
argument is the channel response for the single send. -/
def TelloController.move (direction : String) (distance : Int)
    (reply : Option String) : Except PyExn Bool × List String :=
  if direction ∉ moveDirections then (Except.error PyExn.valueError, [])
  else if ¬(20 ≤ distance ∧ distance ≤ 500) then (Except.error PyExn.valueError, [])
  else
    let sends := [direction ++ " " ++ toString distance]
    match reply with
    | none => (Except.ok false, sends)        -- MovementError raised and caught
    | some r =>
      if r = "ok" then (Except.ok true, sends)
      else (Except.ok false, sends)           -- IMU warning or unexpected reply, caught

/-- TelloController.rotate from src/tello_lib/controller.py lines 311-341,
with the same conventions as move. -/
def TelloController.rotate (direction : String) (degrees : Int)
    (reply : Option String) : Except PyExn Bool × List String :=
  if direction ∉ rotateDirections then (Except.error PyExn.valueError, [])
  else if ¬(1 ≤ degrees ∧ degrees ≤ 360) then (Except.error PyExn.valueError, [])
  else
    let sends := ["" ++ direction ++ " " ++ toString degrees]
    match reply with
    | none => (Except.ok false, sends)
    | some r =>
      if r = "ok" then (Except.ok true, sends)
      else (Except.ok false, sends)

/-- TelloController.set_speed from src/tello_lib/controller.py lines 343-372,
with the same conventions as move. -/
def TelloController.set_speed (speed : Int) (reply : Option String) :
    Except PyExn Bool × List String :=
  if ¬(1 ≤ speed ∧ speed ≤ 100) then (Except.error PyExn.valueError, [])
  else
    let sends := ["speed " ++ toString speed]
    match reply with
    | none => (Except.ok false, sends)
    | some r =>
      if r = "ok" then (Except.ok true, sends)
      else (Except.ok false, sends)

/-- Sites of the two time.sleep(1) calls inside
TelloController._send_command of src/drone.py: the fixed backoff between
attempts, and the settle pause before the takeoff/land liveness probe. -/
inductive SleepSite
  | backoff
  | probeSettle
  deriving DecidableEq

/-- Boolean test for a backoff sleep record. -/
def isBackoff : SleepSite × Nat → Bool
  | (SleepSite.backoff, _) => true
  | _ => false

/-- Observable outcome of one TelloController._send_command call from
src/drone.py: the returned reply or the escaping CommandError, the datagrams
sent on the command socket in order, the sleeps performed (site and duration
in seconds), and the drone state after the call (the takeoff probe can set it
to FLYING). -/
structure ChanOutcome where
  result : Except PyExn String
  sends : List String
  sleeps : List (SleepSite × Nat)
  state : DroneState

/-- Retry loop of TelloController._send_command from src/drone.py lines
231-281. The transport tr maps the global index of a datagram sent on the
command socket to the reply received for it (none models a socket timeout).
fuel counts the remaining attempts, sendIdx the datagrams sent so far, and
lastErr the message of the last timeout. On a timeout of a takeoff or land
command the code sleeps 1 second and probes the vehicle with a speed? query;
a probe reply during a takeoff makes the call return ok and sets the state to
FLYING. Between attempts (attempt < retries - 1) the code sleeps the fixed
1 second backoff. When the attempts are exhausted it raises
CommandError(last_error). -/
def DronePy.sendGo (tr : Nat → Option String) (cmd : String) (st : DroneState) :
    Nat → Nat → Option String → ChanOutcome
  | 0, _, lastErr => ⟨Except.error (PyExn.commandError lastErr), [], [], st⟩
  | Nat.succ fuel, sendIdx, _ =>
    match tr sendIdx with
    | some resp => ⟨Except.ok resp, [cmd], [], st⟩
    | none =>
      let le : Option String := some ("Command timed out: " ++ cmd)
      let bk : List (SleepSite × Nat) :=
        if fuel = 0 then [] else [(SleepSite.backoff, 1)]
      if cmd = "takeoff" ∨ cmd = "land" then
        match tr (sendIdx + 1) with
        | some _ =>
          if cmd = "takeoff" then
            ⟨Except.ok "ok", [cmd, "speed?"], [(SleepSite.probeSettle, 1)],
             DroneState.FLYING⟩
          else
            let rest := DronePy.sendGo tr cmd st fuel (sendIdx + 2) le
            ⟨rest.result, cmd :: "speed?" :: rest.sends,
             (SleepSite.probeSettle, 1) :: (bk ++ rest.sleeps), rest.state⟩
        | none =>
          let rest := DronePy.sendGo tr cmd st fuel (sendIdx + 2) le
          ⟨rest.result, cmd :: "speed?" :: rest.sends,
           (SleepSite.probeSettle, 1) :: (bk ++ rest.sleeps), rest.state⟩
      else
        let rest := DronePy.sendGo tr cmd st fuel (sendIdx + 1) le
        ⟨rest.result, cmd :: rest.sends, bk ++ rest.sleeps, rest.state⟩

/-- TelloController._send_command from src/drone.py lines 231-281, entered
with a full retry budget and no recorded error. -/
def DronePy.send_command (tr : Nat → Option String) (cmd : String)
    (retries : Nat) (st : DroneState) : ChanOutcome :=
  DronePy.sendGo tr cmd st retries 0 none

/-- State of a Python threading.Lock: non-reentrant, so the holder thread is
recorded but acquiring again from the same thread still blocks. -/
inductive PyLock
  | unlocked
  | lockedBy (tid : Nat)
  deriving DecidableEq

/-- Acquire semantics of threading.Lock: succeeds only when the lock is free;
a held lock blocks every acquirer, including the thread that already holds
it (Python threading.Lock is not reentrant). none means the acquire blocks. -/
def lockAcquire (l : PyLock) (tid : Nat) : Option PyLock :=
  match l with
  | PyLock.unlocked => some (PyLock.lockedBy tid)
  | PyLock.lockedBy _ => none

/-- Observable outcome of one iteration of CommandHandler._ping_loop. -/
inductive PingOutcome
  | noPing        -- idle time below the interval; lock released, loop sleeps
  | blockedOuter  -- another thread holds the lock; the iteration waits for it
  | deadlocked    -- the loop holds the lock and send_command blocks re-acquiring it
  | sent          -- the keep-alive command completed
  deriving DecidableEq

/-- One iteration of CommandHandler._ping_loop from
src/tello_lib/command_handler.py lines 46-54, run by thread tid against the
command lock l when elapsed seconds have passed since the last command. The
body acquires _command_lock with a with-statement and, when the idle time has
reached _ping_interval = 12, calls send_command, whose own with-statement
acquires the same non-reentrant lock again. When that inner acquire blocks,
the blocker is the very thread that is waiting, so it can never be released:
the iteration deadlocks and the keep-alive datagram is never sent. -/
def CommandHandler.pingLoopIteration (elapsed : Nat) (l : PyLock) (tid : Nat) :
    PingOutcome × PyLock :=
  match lockAcquire l tid with
  | none => (PingOutcome.blockedOuter, l)
  | some l1 =>
    if 12 ≤ elapsed then
      match lockAcquire l1 tid with
      | none => (PingOutcome.deadlocked, l1)
      | some _ => (PingOutcome.sent, PyLock.unlocked)
    else (PingOutcome.noPing, PyLock.unlocked)

/-- Coordinate triple from src/tello_lib/models.py; the Python floats are
modelled as rationals. -/
structure Coordinate where
  x : Rat
  y : Rat
  z : Rat
  deriving DecidableEq

/-- Temperature range from src/tello_lib/models.py. -/
structure Temperature where
  low : Int
  high : Int
  deriving DecidableEq

/-- DroneStatus record from src/tello_lib/models.py, plus the speed field the
controller assigns on a successful set_speed. -/
structure DroneStatus where
  velocity : Coordinate
  acceleration : Coordinate
  temperature : Temperature
  pitch : Int
  roll : Int
  yaw : Int
  altitude : Int
  barometric_pressure : Rat
  time_of_flight : Int
  time : Int
  battery : Int
  speed : Int
  state : DroneState
  deriving DecidableEq

/-- Result of one guarded field update in the telemetry loop: when the token
exists and parses, the parsed value replaces the old one; a missing token or
a ValueError (none from the parser) leaves the old value. -/
def fieldUpd {A : Type} (parse : String → Option A) (old : A)
    (tok : Option String) : A :=
  match tok with
  | none => old
  | some t => (parse t).getD old

/-- The STATUS_UPDATES table of src/tello_lib/controller.py lines 26-43: the
setter at index idx applied to the token text v, returning none when the
int or float conversion raises ValueError. -/
def statusUpdateApply (s : DroneStatus) (idx : Nat) (v : String) :
    Option DroneStatus :=
  match idx with
  | 0 => (parsePyInt v).map (fun n => { s with pitch := n })
  | 1 => (parsePyInt v).map (fun n => { s with roll := n })
  | 2 => (parsePyInt v).map (fun n => { s with yaw := n })
  | 3 => (parsePyFloat v).map (fun q => { s with velocity := { s.velocity with x := q } })
  | 4 => (parsePyFloat v).map (fun q => { s with velocity := { s.velocity with y := q } })
  | 5 => (parsePyFloat v).map (fun q => { s with velocity := { s.velocity with z := q } })
  | 6 => (parsePyInt v).map (fun n => { s with temperature := { s.temperature with low := n } })
  | 7 => (parsePyInt v).map (fun n => { s with temperature := { s.temperature with high := n } })
  | 8 => (parsePyInt v).map (fun n => { s with time_of_flight := n })
  | 9 => (parsePyInt v).map (fun n => { s with altitude := n })
  | 10 => (parsePyInt v).map (fun n => { s with battery := n })
  | 11 => (parsePyFloat v).map (fun q => { s with barometric_pressure := q })
  | 12 => (parsePyInt v).map (fun n => { s with time := n })
  | 13 => (parsePyFloat v).map (fun q => { s with acceleration := { s.acceleration with x := q } })
  | 14 => (parsePyFloat v).map (fun q => { s with acceleration := { s.acceleration with y := q } })
  | 15 => (parsePyFloat v).map (fun q => { s with acceleration := { s.acceleration with z := q } })
  | _ => some s

/-- One pass of the loop body of TelloController._status_loop for a single
table entry: the update runs only when idx < len(values), and a ValueError is
caught and skipped (except ValueError: continue). -/
def applyOne (s : DroneStatus) (values : List String) (idx : Nat) : DroneStatus :=
  match values.get? idx with
  | none => s
  | some v =>
    match statusUpdateApply s idx v with
    | none => s
    | some s' => s'

/-- The for-loop of TelloController._status_loop (src/tello_lib/controller.py
lines 137-142) over the sixteen STATUS_UPDATES entries, in table order. -/
def applyStatusUpdates (s : DroneStatus) (values : List String) : DroneStatus :=
  let s := applyOne s values 0
  let s := applyOne s values 1
  let s := applyOne s values 2
  let s := applyOne s values 3
  let s := applyOne s values 4
  let s := applyOne s values 5
  let s := applyOne s values 6
  let s := applyOne s values 7
  let s := applyOne s values 8
  let s := applyOne s values 9
  let s := applyOne s values 10
  let s := applyOne s values 11
  let s := applyOne s values 12
  let s := applyOne s values 13
  let s := applyOne s values 14
  applyOne s values 15

/-- Token extraction of TelloController._status_loop line 134: strip the
datagram, split on semicolons, and keep the text after the colon of every
piece that contains a colon. When a piece contains a colon its split has at
least two parts, so the index [1] access never fails; the getD only covers
the impossible branch. -/
def extractStatusValues (raw : String) : List String :=
  (raw.trim.splitOn ";").filterMap (fun item =>
    if strContains item ":" then some (((item.splitOn ":").get? 1).getD "")
    else none)

/-- One telemetry datagram processed by TelloController._status_loop:
extraction followed by the guarded field updates. -/
def statusDatagramUpdate (s : DroneStatus) (raw : String) : DroneStatus :=
  applyStatusUpdates s (extractStatusValues raw)

/-- Claim C9: the height parser maps "8dm" to 80 (a decimeters suffix is
converted to centimeters by multiplying by 10) and maps "150" to 150 (a
number with no unit is taken as centimeters unchanged). -/
theorem parse_height_units :
    parse_height "8dm" = 80 ∧ parse_height "150" = 150 := by
  have h8 : parsePyFloat (keepNumericChars "8dm") = some ((8 : Int) : Rat) := by
    decide
  have h150 : parsePyFloat (keepNumericChars "150") = some ((150 : Int) : Rat) := by
    decide
  have hdm : strContains "8dm" "dm" = true := by decide
  have hno : strContains "150" "dm" = false := by decide
  have hmul : ((8 : Int) : Rat) * 10 = ((80 : Int) : Rat) := by norm_num
  constructor
  · simp only [parse_height, h8, hdm, if_true, hmul]
    decide
  · simp only [parse_height, h150, hno, Bool.false_eq_true, if_false]
    decide

/-- Claim C6 (code bug witness): with the command lock free and the idle time
at 13 seconds (past the 12 second threshold), one iteration of the keep-alive
loop deadlocks: _ping_loop holds the non-reentrant command lock when it calls
send_command, whose with-statement blocks acquiring the same lock from the
same thread, so the keep-alive send never completes. -/
theorem keepalive_ping_deadlock :
    CommandHandler.pingLoopIteration 13 PyLock.unlocked 1 =
      (PingOutcome.deadlocked, PyLock.lockedBy 1) := rfl

/-- Claim C1: takeoff with an ok reply but an altitude probe that stays at or
below the 10 cm minimum reports failure, leaving the state CONNECTED; takeoff
with a timed-out reply but an altitude probe above the minimum reports
success and sets the state to FLYING. -/
theorem takeoff_ambiguity (alt1 alt2 : Nat → Int)
    (h1 : ∀ n, alt1 n ≤ 10) (h2 : 10 < alt2 0) :
    TelloController.takeoff DroneState.CONNECTED (some "ok") alt1 =
      Except.ok (false, DroneState.CONNECTED) ∧
    TelloController.takeoff DroneState.CONNECTED none alt2 =
      Except.ok (true, DroneState.FLYING) := by
  have e0 : ¬ (10 < alt1 0) := by have := h1 0; omega
  have e1 : ¬ (10 < alt1 1) := by have := h1 1; omega
  constructor
  · unfold TelloController.takeoff
    simp [e0, e1]
  · unfold TelloController.takeoff
    simp [h2]

/-- Witness for takeoff_ambiguity at the concrete probes that always read
0 cm and 50 cm. -/
theorem takeoff_ambiguity_witness :
    TelloController.takeoff DroneState.CONNECTED (some "ok") (fun _ => 0) =
      Except.ok (false, DroneState.CONNECTED) ∧
    TelloController.takeoff DroneState.CONNECTED none (fun _ => 50) =
      Except.ok (true, DroneState.FLYING) :=
  takeoff_ambiguity (fun _ => 0) (fun _ => 50) (fun n => by norm_num) (by norm_num)

/-- Claim C4: out-of-domain arguments (direction outside the allowed tokens,
distance outside [20, 500], degrees outside [1, 360], speed outside [1, 100])
make move, rotate and set_speed fail with the ValueError that implements the
argument-domain check, and no command is handed to the channel. -/
theorem argument_domain_rejected (dir rdir : String) (dist degrees speed : Int)
    (reply : Option String)
    (hm : dir ∉ moveDirections ∨ ¬(20 ≤ dist ∧ dist ≤ 500))
    (hr : rdir ∉ rotateDirections ∨ ¬(1 ≤ degrees ∧ degrees ≤ 360))
    (hs : ¬(1 ≤ speed ∧ speed ≤ 100)) :
    TelloController.move dir dist reply = (Except.error PyExn.valueError, []) ∧
    TelloController.rotate rdir degrees reply = (Except.error PyExn.valueError, []) ∧
    TelloController.set_speed speed reply = (Except.error PyExn.valueError, []) := by
  refine ⟨?_, ?_, ?_⟩
  · unfold TelloController.move
    rcases hm with h | h
    · simp [h]
    · by_cases hd : dir ∈ moveDirections <;> simp [hd, h]
  · unfold TelloController.rotate
    rcases hr with h | h
    · simp [h]
    · by_cases hd : rdir ∈ rotateDirections <;> simp [hd, h]
  · unfold TelloController.set_speed
    simp [hs]

/-- Witness for argument_domain_rejected at a bad direction with a short
distance, an unknown rotation token, and a zero speed. -/
theorem argument_domain_rejected_witness :
    TelloController.move "diagonal" 10 none = (Except.error PyExn.valueError, []) ∧
    TelloController.rotate "left" 400 none = (Except.error PyExn.valueError, []) ∧
    TelloController.set_speed 0 none = (Except.error PyExn.valueError, []) :=
  argument_domain_rejected "diagonal" "left" 10 400 0 none
    (by left; decide) (by left; decide) (by decide)

/-- Claim C5 counterexample: the API does let exceptions escape. move with
the in-set direction up but the out-of-domain distance 10 raises ValueError
to the caller (the validation precedes the try block), and takeoff invoked
while DISCONNECTED raises CommandError, which the except TakeoffError clause
does not catch. -/
theorem api_exception_escape_cex :
    (TelloController.move "up" 10 none).1 = Except.error PyExn.valueError ∧
    TelloController.takeoff DroneState.DISCONNECTED none (fun _ => 0) =
      Except.error (PyExn.commandError (some "Drone must be connected before takeoff")) := by
  constructor <;> rfl

/-- Claim C5 amended: move, rotate and set_speed with in-domain arguments,
and takeoff invoked while CONNECTED, always return a value (success or a
caught structured failure) for every channel reply; but out-of-domain
arguments escape as ValueError and takeoff outside CONNECTED escapes as
CommandError. -/
theorem api_structured_results_amended (dir rdir : String)
    (dist degrees speed : Int) (reply : Option String) (st : DroneState)
    (alt : Nat → Int)
    (hm : dir ∈ moveDirections) (hd1 : 20 ≤ dist) (hd2 : dist ≤ 500)
    (hro : rdir ∈ rotateDirections) (hg1 : 1 ≤ degrees) (hg2 : degrees ≤ 360)
    (hs1 : 1 ≤ speed) (hs2 : speed ≤ 100) (hst : st ≠ DroneState.CONNECTED) :
    (∃ b, (TelloController.move dir dist reply).1 = Except.ok b) ∧
    (∃ b, (TelloController.rotate rdir degrees reply).1 = Except.ok b) ∧
    (∃ b, (TelloController.set_speed speed reply).1 = Except.ok b) ∧
    (∃ p, TelloController.takeoff DroneState.CONNECTED reply alt = Except.ok p) ∧
    TelloController.takeoff st reply alt =
      Except.error (PyExn.commandError (some "Drone must be connected before takeoff")) := by
  refine ⟨?_, ?_, ?_, ?_, ?_⟩
  · unfold TelloController.move
    simp only [hm, not_true_eq_false, if_false, hd1, hd2, and_self,
      not_true_eq_false]
    rcases reply with _ | r
    · exact ⟨false, rfl⟩
    · by_cases h : r = "ok" <;> simp [h]
  · unfold TelloController.rotate
    simp only [hro, not_true_eq_false, if_false, hg1, hg2, and_self]
    rcases reply with _ | r
    · exact ⟨false, rfl⟩
    · by_cases h : r = "ok" <;> simp [h]
  · unfold TelloController.set_speed
    simp only [hs1, hs2, and_self, not_true_eq_false, if_false]
    rcases reply with _ | r
    · exact ⟨false, rfl⟩
    · by_cases h : r = "ok" <;> simp [h]
  · unfold TelloController.takeoff
    simp only [ne_eq, not_true_eq_false, if_false, reduceIte]
    rcases reply with _ | r
    · by_cases h : 10 < alt 0 <;> simp [h]
    · by_cases hok : (r = "ok" ∨ strContains r imuWarning = true)
      · simp only [hok, if_true]
        by_cases h0 : 10 < alt 0
        · by_cases hi : strContains r imuWarning = true <;> simp [h0, hi]
        · by_cases h1 : 10 < alt 1 <;> simp [h0, h1]
      · simp only [hok, if_false]
        by_cases h0 : 10 < alt 0 <;> simp [h0]
  · unfold TelloController.takeoff
    simp [hst]

/-- Witness for api_structured_results_amended at concrete in-domain and
out-of-state inputs. -/
theorem api_structured_results_amended_witness :
    (∃ b, (TelloController.move "up" 100 (some "ok")).1 = Except.ok b) ∧
    (∃ b, (TelloController.rotate "cw" 90 (some "ok")).1 = Except.ok b) ∧
    (∃ b, (TelloController.set_speed 50 (some "ok")).1 = Except.ok b) ∧
    (∃ p, TelloController.takeoff DroneState.CONNECTED (some "ok") (fun _ => 50) =
      Except.ok p) ∧
    TelloController.takeoff DroneState.LANDED (some "ok") (fun _ => 50) =
      Except.error (PyExn.commandError (some "Drone must be connected before takeoff")) :=
  api_structured_results_amended "up" "cw" 100 90 50 (some "ok")
    DroneState.LANDED (fun _ => 50) (by decide) (by decide) (by decide)
    (by decide) (by decide) (by decide) (by decide) (by decide) (by decide)

/-- Helper: the guarded join never raises, because is_alive rules out the
never-started thread that join would reject. -/
theorem joinIfAlive_ok (th : Option ThreadSt) :
    ∃ th', joinIfAlive th = Except.ok th' := by
  rcases th with _ | t
  · exact ⟨none, rfl⟩
  · cases t <;> exact ⟨_, rfl⟩

/-- Helper: VideoStream.stop never raises and always leaves the stream state
DISCONNECTED. -/
theorem videoStream_stop_ok (v : VideoStream) :
    ∃ v', VideoStream.stop v = Except.ok v' ∧
      v'.state = VideoStreamState.DISCONNECTED := by
  obtain ⟨vcap, vrun, vth, vlf, vst⟩ := v
  rcases vth with _ | vt
  · exact ⟨_, rfl, rfl⟩
  · cases vt <;> exact ⟨_, rfl, rfl⟩

/-- Helper: CommandHandler.stop never raises. -/
theorem commandHandler_stop_ok (h : CommandHandlerSt) :
    ∃ h', CommandHandler.stop h = Except.ok h' := by
  obtain ⟨hrun, hpth, hsock⟩ := h
  rcases hpth with _ | ht
  · exact ⟨_, rfl⟩
  · cases ht <;> exact ⟨_, rfl⟩

/-- Helper: TelloController.disconnect always returns True and leaves the
drone state DISCONNECTED. -/
theorem disconnect_ok (c : TelloControllerSt) :
    ∃ c', TelloController.disconnect c = (true, c') ∧
      c'.state = DroneState.DISCONNECTED := by
  obtain ⟨run, sth, v, h, ss, st⟩ := c
  obtain ⟨vcap, vrun, vth, vlf, vst⟩ := v
  obtain ⟨hrun, hpth, hsock⟩ := h
  cases sth <;>
    rcases vth with _ | vt <;> (try cases vt) <;>
    rcases hpth with _ | ht <;> (try cases ht) <;>
    exact ⟨_, rfl, rfl⟩

/-- Claim C7: stopping the video monitor twice in a row produces no error and
leaves the stream state DISCONNECTED after each call, and disconnecting the
controller twice in a row returns True and leaves the drone state
DISCONNECTED after each call. -/
theorem stop_disconnect_idempotent (v : VideoStream) (c : TelloControllerSt) :
    (∃ v1 v2, VideoStream.stop v = Except.ok v1 ∧
       v1.state = VideoStreamState.DISCONNECTED ∧
       VideoStream.stop v1 = Except.ok v2 ∧
       v2.state = VideoStreamState.DISCONNECTED) ∧
    (∃ c1 c2, TelloController.disconnect c = (true, c1) ∧
       c1.state = DroneState.DISCONNECTED ∧
       TelloController.disconnect c1 = (true, c2) ∧
       c2.state = DroneState.DISCONNECTED) := by
  constructor
  · obtain ⟨v1, h1, hs1⟩ := videoStream_stop_ok v
    obtain ⟨v2, h2, hs2⟩ := videoStream_stop_ok v1
    exact ⟨v1, v2, h1, hs1, h2, hs2⟩
  · obtain ⟨c1, h1, hs1⟩ := disconnect_ok c
    obtain ⟨c2, h2, hs2⟩ := disconnect_ok c1
    exact ⟨c1, c2, h1, hs1, h2, hs2⟩

/-- Helper: from INITIALIZING with counter c, a run of k + 1 valid frames
with c + 1 + k = threshold ends exactly at the STREAMING transition. -/
theorem videoRun_valid_reach (t : Nat) :
    ∀ (k : Nat) (c : Int), c + 1 + (k : Int) = (t : Int) →
    videoLoopRun t VideoStreamState.INITIALIZING c
      (List.replicate (k + 1) FrameEvent.valid) =
      (VideoStreamState.STREAMING, (t : Int)) := by
  intro k
  induction k with
  | zero =>
    intro c hc
    have h1 : c + 1 ≥ (t : Int) := by omega
    simp only [List.replicate, videoLoopRun, videoLoopStep, if_pos h1]
    have : c + 1 = (t : Int) := by omega
    rw [this]
  | succ k ih =>
    intro c hc
    have h1 : ¬ (c + 1 ≥ (t : Int)) := by push_cast at hc ⊢; omega
    rw [List.replicate_succ]
    simp only [videoLoopRun, videoLoopStep, if_neg h1]
    exact ih (c + 1) (by push_cast at hc ⊢; omega)

/-- Helper: one-step characterization of an invalid frame without watchdog
timeout. -/
theorem videoStep_invalid (t : Nat) (st : VideoStreamState) (c : Int) :
    videoLoopStep t st c (FrameEvent.invalid false) =
      ((if st = VideoStreamState.STREAMING ∧ max 0 (c - 2) < (t : Int)
        then VideoStreamState.ERROR else st, max 0 (c - 2)), true) := by
  simp only [videoLoopStep, Bool.false_eq_true, if_false]
  split_ifs with h <;> rfl

/-- Helper: invalid frames received in the ERROR state never change the
state. -/
theorem videoRun_error_stays (t : Nat) :
    ∀ (k : Nat) (c : Int),
    (videoLoopRun t VideoStreamState.ERROR c
      (List.replicate k (FrameEvent.invalid false))).1 = VideoStreamState.ERROR := by
  intro k
  induction k with
  | zero => intro c; simp [videoLoopRun]
  | succ k ih =>
    intro c
    rw [List.replicate_succ]
    have hstep := videoStep_invalid t VideoStreamState.ERROR c
    have hcond : ¬ (VideoStreamState.ERROR = VideoStreamState.STREAMING ∧
        max 0 (c - 2) < (t : Int)) := by
      rintro ⟨h, -⟩; exact absurd h (by decide)
    rw [if_neg hcond] at hstep
    simp only [videoLoopRun, hstep]
    exact ih (max 0 (c - 2))

/-- Helper: from STREAMING with counter c < threshold + 2 j, a run of j
invalid frames (no watchdog timeout) ends in the ERROR state. -/
theorem videoRun_invalid_to_error (t : Nat) (ht : 1 ≤ t) :
    ∀ (j : Nat) (c : Int), 1 ≤ j → c < (t : Int) + 2 * j →
    (videoLoopRun t VideoStreamState.STREAMING c
      (List.replicate j (FrameEvent.invalid false))).1 = VideoStreamState.ERROR := by
  intro j
  induction j with
  | zero => intro c hj; omega
  | succ j ih =>
    intro c hj hc
    rw [List.replicate_succ]
    have hstep := videoStep_invalid t VideoStreamState.STREAMING c
    by_cases hlt : max 0 (c - 2) < (t : Int)
    · rw [if_pos ⟨rfl, hlt⟩] at hstep
      simp only [videoLoopRun, hstep]
      exact videoRun_error_stays t j (max 0 (c - 2))
    · have hcond : ¬ (VideoStreamState.STREAMING = VideoStreamState.STREAMING ∧
          max 0 (c - 2) < (t : Int)) := fun h => hlt h.2
      rw [if_neg hcond] at hstep
      have hmax : max 0 (c - 2) = c - 2 := by omega
      rw [hmax] at hstep
      have hj1 : 1 ≤ j := by
        by_contra h0
        have hj0 : j = 0 := by omega
        subst hj0
        apply hlt
        push_cast at hc
        omega
      simp only [videoLoopRun, hstep]
      exact ih (c - 2) hj1 (by push_cast at hc ⊢; omega)

/-- Claim C2: the video health machine reaches STREAMING after threshold
consecutive valid frames from the INITIALIZING reset; one invalid frame in
STREAMING decrements the counter by 2 floored at 0 and moves to ERROR exactly
when the counter falls below the threshold; threshold + 1 consecutive invalid
frames from any reachable STREAMING counter (at most threshold + 10, for the
source threshold 30, and any threshold of at least 5) end in ERROR; and a
single invalid frame with the counter saturated above threshold + 1 leaves
the state STREAMING. -/
theorem video_health_transitions (t : Nat) (c : Int) :
    (1 ≤ t →
      videoLoopRun t VideoStreamState.INITIALIZING 0
        (List.replicate t FrameEvent.valid) =
        (VideoStreamState.STREAMING, (t : Int))) ∧
    (videoLoopStep t VideoStreamState.STREAMING c (FrameEvent.invalid false) =
      ((if max 0 (c - 2) < (t : Int) then VideoStreamState.ERROR
        else VideoStreamState.STREAMING, max 0 (c - 2)), true)) ∧
    (5 ≤ t → 0 ≤ c → c ≤ (t : Int) + 10 →
      (videoLoopRun t VideoStreamState.STREAMING c
        (List.replicate (t + 1) (FrameEvent.invalid false))).1 =
        VideoStreamState.ERROR) ∧
    ((t : Int) + 2 ≤ c →
      videoLoopStep t VideoStreamState.STREAMING c (FrameEvent.invalid false) =
        ((VideoStreamState.STREAMING, c - 2), true)) := by
  refine ⟨?_, ?_, ?_, ?_⟩
  · intro h1
    obtain ⟨k, rfl⟩ : ∃ k, t = k + 1 := ⟨t - 1, by omega⟩
    exact videoRun_valid_reach (k + 1) k 0 (by push_cast; omega)
  · rw [videoStep_invalid]
    by_cases hlt : max 0 (c - 2) < (t : Int)
    · rw [if_pos ⟨rfl, hlt⟩, if_pos hlt]
    · rw [if_neg (fun h => hlt h.2), if_neg hlt]
  · intro h5 hc0 hcap
    exact videoRun_invalid_to_error t (by omega) (t + 1) c (by omega)
      (by push_cast; omega)
  · intro hsat
    rw [videoStep_invalid]
    have hcond : ¬ (VideoStreamState.STREAMING = VideoStreamState.STREAMING ∧
        max 0 (c - 2) < (t : Int)) := by
      rintro ⟨-, h⟩; omega
    have hmax : max 0 (c - 2) = c - 2 := by omega
    rw [if_neg hcond, hmax]

/-- Witness for video_health_transitions at the source threshold 30 and the
saturated counter 40. -/
theorem video_health_transitions_witness :
    videoLoopRun 30 VideoStreamState.INITIALIZING 0
      (List.replicate 30 FrameEvent.valid) = (VideoStreamState.STREAMING, 30) ∧
    (videoLoopRun 30 VideoStreamState.STREAMING 40
      (List.replicate 31 (FrameEvent.invalid false))).1 = VideoStreamState.ERROR ∧
    videoLoopStep 30 VideoStreamState.STREAMING 40 (FrameEvent.invalid false) =
      ((VideoStreamState.STREAMING, 40 - 2), true) :=
  ⟨(video_health_transitions 30 40).1 (by norm_num),
   (video_health_transitions 30 40).2.2.1 (by norm_num) (by norm_num) (by norm_num),
   (video_health_transitions 30 40).2.2.2 (by norm_num)⟩

/-- Helper: one capture-loop iteration preserves the counter invariant. -/
theorem videoInv_preserved (t : Nat) (st : VideoStreamState) (c : Int)
    (e : FrameEvent) (h : VideoCounterInv t st c) :
    VideoCounterInv t ((videoLoopStep t st c e).1).1
      ((videoLoopStep t st c e).1).2 := by
  obtain ⟨h0, hcap, hinit⟩ := h
  cases e with
  | valid =>
    cases st with
    | INITIALIZING =>
      have hc : c ≤ (t : Int) := hinit rfl
      by_cases hge : c + 1 ≥ (t : Int)
      · simp only [videoLoopStep, if_pos hge]
        exact ⟨by omega, by omega, fun h => absurd h (by decide)⟩
      · simp only [videoLoopStep, if_neg hge]
        exact ⟨by omega, by omega, fun _ => by omega⟩
    | STREAMING =>
      simp only [videoLoopStep]
      exact ⟨by omega, by omega, fun h => absurd h (by decide)⟩
    | DISCONNECTED =>
      simp only [videoLoopStep]
      exact ⟨h0, hcap, fun h => absurd h (by decide)⟩
    | ERROR =>
      simp only [videoLoopStep]
      exact ⟨h0, hcap, fun h => absurd h (by decide)⟩
  | invalid timedOut =>
    cases timedOut with
    | true =>
      have hstep : videoLoopStep t st c (FrameEvent.invalid true) =
          ((VideoStreamState.ERROR, c), false) := by
        simp [videoLoopStep]
      rw [hstep]
      dsimp only
      exact ⟨h0, hcap, fun h => absurd h (by decide)⟩
    | false =>
      rw [videoStep_invalid]
      dsimp only
      by_cases hcond : st = VideoStreamState.STREAMING ∧ max 0 (c - 2) < (t : Int)
      · rw [if_pos hcond]
        exact ⟨by omega, by omega, fun h => absurd h (by decide)⟩
      · rw [if_neg hcond]
        refine ⟨by omega, by omega, fun h => ?_⟩
        have := hinit h
        omega
  | exn =>
    simp only [videoLoopStep]
    exact ⟨h0, hcap, fun h => absurd h (by decide)⟩

/-- Helper: the counter invariant holds after any run of the capture loop
from an invariant-satisfying state. -/
theorem videoInv_run (t : Nat) :
    ∀ (evs : List FrameEvent) (st : VideoStreamState) (c : Int),
    VideoCounterInv t st c →
    VideoCounterInv t (videoLoopRun t st c evs).1 (videoLoopRun t st c evs).2 := by
  intro evs
  induction evs with
  | nil => intro st c h; simpa [videoLoopRun] using h
  | cons e es ih =>
    intro st c h
    have hstep := videoInv_preserved t st c e h
    rcases hflag : videoLoopStep t st c e with ⟨⟨st', c'⟩, cont⟩
    rw [hflag] at hstep
    simp only [videoLoopRun, hflag]
    cases cont
    · simpa using hstep
    · exact ih st' c' (by simpa using hstep)

/-- Claim C10: the validity counter always stays in [0, threshold + 10]:
the invariant holds at the start() reset, is preserved by every capture-loop
iteration (decrements floored at 0, increments capped at threshold + 10, and
while INITIALIZING the counter never exceeds the threshold because reaching
it transitions to STREAMING), and therefore holds after every finite run of
the loop from the reset state. -/
theorem validity_counter_invariant (t : Nat) (st st0 : VideoStreamState)
    (c c0 : Int) (e : FrameEvent) :
    (∀ p, videoStartReset st0 c0 = some p → VideoCounterInv t p.1 p.2) ∧
    (VideoCounterInv t st c →
      VideoCounterInv t ((videoLoopStep t st c e).1).1
        ((videoLoopStep t st c e).1).2) ∧
    (∀ evs, VideoCounterInv t
      (videoLoopRun t VideoStreamState.INITIALIZING 0 evs).1
      (videoLoopRun t VideoStreamState.INITIALIZING 0 evs).2) := by
  refine ⟨?_, videoInv_preserved t st c e, ?_⟩
  · intro p hp
    unfold videoStartReset at hp
    split at hp
    · cases hp
      exact ⟨by omega, by omega, fun _ => by omega⟩
    · cases hp
  · intro evs
    exact videoInv_run t evs VideoStreamState.INITIALIZING 0
      ⟨by omega, by omega, fun _ => by omega⟩

/-- Witness for validity_counter_invariant: the invariant at the saturated
STREAMING counter 40 with threshold 30 is preserved by one more valid
frame. -/
theorem validity_counter_invariant_witness :
    VideoCounterInv 30
      ((videoLoopStep 30 VideoStreamState.STREAMING 40 FrameEvent.valid).1).1
      ((videoLoopStep 30 VideoStreamState.STREAMING 40 FrameEvent.valid).1).2 :=
  (validity_counter_invariant 30 VideoStreamState.STREAMING
      VideoStreamState.DISCONNECTED 40 0 FrameEvent.valid).2.1
    ⟨by norm_num, by norm_num, fun h => absurd h (by decide)⟩

/-- Helper: against a transport that never answers, the retry loop with fuel
remaining attempts raises the timeout CommandError, sends the command text
exactly fuel times, and performs exactly fuel - 1 one-second backoff
sleeps. -/
theorem sendGo_never (cmd : String) (st : DroneState) :
    ∀ (fuel idx : Nat) (le : Option String), 1 ≤ fuel →
    (DronePy.sendGo (fun _ => none) cmd st fuel idx le).result =
      Except.error (PyExn.commandError (some ("Command timed out: " ++ cmd))) ∧
    (DronePy.sendGo (fun _ => none) cmd st fuel idx le).sends.count cmd = fuel ∧
    (DronePy.sendGo (fun _ => none) cmd st fuel idx le).sleeps.filter isBackoff =
      List.replicate (fuel - 1) (SleepSite.backoff, 1) := by
  intro fuel
  induction fuel with
  | zero => intro idx le h; omega
  | succ n ih =>
    intro idx le _
    rcases Nat.eq_zero_or_pos n with rfl | hn
    · by_cases hsp : cmd = "takeoff" ∨ cmd = "land"
      · have hne : ("speed?" == cmd) = false := by
          rcases hsp with h | h <;> subst h <;> decide
        refine ⟨?_, ?_, ?_⟩ <;> simp only [DronePy.sendGo, if_pos hsp] <;>
          try rfl
        all_goals simp [List.count_cons, hne]
      · refine ⟨?_, ?_, ?_⟩ <;> simp only [DronePy.sendGo, if_neg hsp] <;>
          try rfl
        all_goals simp
    · have hbkc : ¬ (n = 0) := by omega
      by_cases hsp : cmd = "takeoff" ∨ cmd = "land"
      · have hne : ("speed?" == cmd) = false := by
          rcases hsp with h | h <;> subst h <;> decide
        obtain ⟨ih1, ih2, ih3⟩ := ih (idx + 2)
          (some ("Command timed out: " ++ cmd)) hn
        refine ⟨?_, ?_, ?_⟩ <;>
          simp only [DronePy.sendGo, if_pos hsp, if_neg hbkc]
        · exact ih1
        · simp [List.count_cons, hne, ih2]
        · obtain ⟨m, rfl⟩ : ∃ m, n = m + 1 := ⟨n - 1, by omega⟩
          simp [isBackoff, List.filter_cons, List.filter_append, ih3,
            List.replicate_succ]
      · obtain ⟨ih1, ih2, ih3⟩ := ih (idx + 1)
          (some ("Command timed out: " ++ cmd)) hn
        refine ⟨?_, ?_, ?_⟩ <;>
          simp only [DronePy.sendGo, if_neg hsp, if_neg hbkc]
        · exact ih1
        · simp [List.count_cons, ih2]
        · obtain ⟨m, rfl⟩ : ∃ m, n = m + 1 := ⟨n - 1, by omega⟩
          simp [isBackoff, List.filter_cons, List.filter_append, ih3,
            List.replicate_succ]

/-- Helper: a transport that times out on all but the last attempt of a
non-takeoff, non-land command and answers the last one makes the retry loop
return that reply. -/
theorem sendGo_last_ok (cmd : String) (st : DroneState)
    (hto : cmd ≠ "takeoff") (hld : cmd ≠ "land") (resp : String) :
    ∀ (fuel idx : Nat) (le : Option String) (tr : Nat → Option String),
    1 ≤ fuel →
    (∀ k, k < fuel - 1 → tr (idx + k) = none) →
    tr (idx + (fuel - 1)) = some resp →
    (DronePy.sendGo tr cmd st fuel idx le).result = Except.ok resp := by
  intro fuel
  induction fuel with
  | zero => intro idx le tr h; omega
  | succ n ih =>
    intro idx le tr _ hnone hlast
    have hsp : ¬ (cmd = "takeoff" ∨ cmd = "land") := by
      rintro (h | h)
      · exact hto h
      · exact hld h
    rcases Nat.eq_zero_or_pos n with rfl | hn
    · have h0 : tr idx = some resp := by simpa using hlast
      simp only [DronePy.sendGo, h0]
    · have h0 : tr idx = none := by simpa using hnone 0 (by omega)
      simp only [DronePy.sendGo, h0, if_neg hsp]
      refine ih (idx + 1) _ tr hn (fun k hk => ?_) ?_
      · have h := hnone (k + 1) (by omega)
        rw [show idx + 1 + k = idx + (k + 1) by omega]
        exact h
      · have h := hlast
        rw [show idx + 1 + (n - 1) = idx + (n + 1 - 1) by omega]
        exact h

/-- Claim C3: against a transport that never answers, a send with retry
budget retries performs exactly retries send attempts of the command text,
sleeps the fixed 1 second backoff exactly between consecutive attempts
(retries - 1 times), and fails with the timeout CommandError; a transport
that answers on the last attempt yields a successful call. -/
theorem command_retry_budget (cmd : String) (retries : Nat) (st : DroneState)
    (tr : Nat → Option String) (resp : String) (hr : 1 ≤ retries) :
    ((DronePy.send_command (fun _ => none) cmd retries st).result =
       Except.error (PyExn.commandError (some ("Command timed out: " ++ cmd))) ∧
     (DronePy.send_command (fun _ => none) cmd retries st).sends.count cmd =
       retries ∧
     (DronePy.send_command (fun _ => none) cmd retries st).sleeps.filter
       isBackoff = List.replicate (retries - 1) (SleepSite.backoff, 1)) ∧
    (cmd ≠ "takeoff" → cmd ≠ "land" →
      (∀ k, k < retries - 1 → tr k = none) → tr (retries - 1) = some resp →
      (DronePy.send_command tr cmd retries st).result = Except.ok resp) := by
  obtain ⟨f, rfl⟩ : ∃ f, retries = f + 1 := ⟨retries - 1, by omega⟩
  constructor
  · have h := sendGo_never cmd st (f + 1) 0 none (by omega)
    simpa [DronePy.send_command] using h
  · intro hto hld hnone hlast
    have h := sendGo_last_ok cmd st hto hld resp (f + 1) 0 none tr (by omega)
      (fun k hk => by simpa using hnone k (by simpa using hk))
      (by simpa using hlast)
    simpa [DronePy.send_command] using h

/-- Witness for command_retry_budget: the command forward 100 with budget 3
against the silent transport, and against the transport that answers the
third attempt. -/
theorem command_retry_budget_witness :
    ((DronePy.send_command (fun _ => none) "forward 100" 3
        DroneState.CONNECTED).result =
       Except.error (PyExn.commandError
         (some ("Command timed out: " ++ "forward 100"))) ∧
     (DronePy.send_command (fun _ => none) "forward 100" 3
        DroneState.CONNECTED).sends.count "forward 100" = 3 ∧
     (DronePy.send_command (fun _ => none) "forward 100" 3
        DroneState.CONNECTED).sleeps.filter isBackoff =
       List.replicate 2 (SleepSite.backoff, 1)) ∧
    (DronePy.send_command (fun n => if n = 2 then some "ok" else none)
       "forward 100" 3 DroneState.CONNECTED).result = Except.ok "ok" := by
  have h := command_retry_budget "forward 100" 3 DroneState.CONNECTED
    (fun n => if n = 2 then some "ok" else none) "ok" (by norm_num)
  refine ⟨h.1, h.2 (by decide) (by decide) (fun k hk => ?_) (by norm_num)⟩
  have hne : ¬ (k = 2) := by omega
  simp [hne]

/-- Helper: table entry 0 updates only its own field, guarded per token. -/
theorem applyOne_0 (s : DroneStatus) (values : List String) :
    applyOne s values 0 =
      { s with pitch := fieldUpd parsePyInt s.pitch (values.get? 0) } := by
  cases h : values[0]? with
  | none => simp [applyOne, fieldUpd, h]
  | some v =>
    cases hp : parsePyInt v with
    | none => simp [applyOne, statusUpdateApply, fieldUpd, h, hp]
    | some n => simp [applyOne, statusUpdateApply, fieldUpd, h, hp]

/-- Helper: table entry 1 updates only its own field, guarded per token. -/
theorem applyOne_1 (s : DroneStatus) (values : List String) :
    applyOne s values 1 =
      { s with roll := fieldUpd parsePyInt s.roll (values.get? 1) } := by
  cases h : values[1]? with
  | none => simp [applyOne, fieldUpd, h]
  | some v =>
    cases hp : parsePyInt v with
    | none => simp [applyOne, statusUpdateApply, fieldUpd, h, hp]
    | some n => simp [applyOne, statusUpdateApply, fieldUpd, h, hp]

/-- Helper: table entry 2 updates only its own field, guarded per token. -/
theorem applyOne_2 (s : DroneStatus) (values : List String) :
    applyOne s values 2 =
      { s with yaw := fieldUpd parsePyInt s.yaw (values.get? 2) } := by
  cases h : values[2]? with
  | none => simp [applyOne, fieldUpd, h]
  | some v =>
    cases hp : parsePyInt v with
    | none => simp [applyOne, statusUpdateApply, fieldUpd, h, hp]
    | some n => simp [applyOne, statusUpdateApply, fieldUpd, h, hp]

/-- Helper: table entry 3 updates only its own field, guarded per token. -/
theorem applyOne_3 (s : DroneStatus) (values : List String) :
    applyOne s values 3 =
      { s with velocity := { s.velocity with x := fieldUpd parsePyFloat s.velocity.x (values.get? 3) } } := by
  cases h : values[3]? with
  | none => simp [applyOne, fieldUpd, h]
  | some v =>
    cases hp : parsePyFloat v with
    | none => simp [applyOne, statusUpdateApply, fieldUpd, h, hp]
    | some n => simp [applyOne, statusUpdateApply, fieldUpd, h, hp]

/-- Helper: table entry 4 updates only its own field, guarded per token. -/
theorem applyOne_4 (s : DroneStatus) (values : List String) :
    applyOne s values 4 =
      { s with velocity := { s.velocity with y := fieldUpd parsePyFloat s.velocity.y (values.get? 4) } } := by
  cases h : values[4]? with
  | none => simp [applyOne, fieldUpd, h]
  | some v =>
    cases hp : parsePyFloat v with
    | none => simp [applyOne, statusUpdateApply, fieldUpd, h, hp]
    | some n => simp [applyOne, statusUpdateApply, fieldUpd, h, hp]

/-- Helper: table entry 5 updates only its own field, guarded per token. -/
theorem applyOne_5 (s : DroneStatus) (values : List String) :
    applyOne s values 5 =
      { s with velocity := { s.velocity with z := fieldUpd parsePyFloat s.velocity.z (values.get? 5) } } := by
  cases h : values[5]? with
  | none => simp [applyOne, fieldUpd, h]
  | some v =>
    cases hp : parsePyFloat v with
    | none => simp [applyOne, statusUpdateApply, fieldUpd, h, hp]
    | some n => simp [applyOne, statusUpdateApply, fieldUpd, h, hp]

/-- Helper: table entry 6 updates only its own field, guarded per token. -/
theorem applyOne_6 (s : DroneStatus) (values : List String) :
    applyOne s values 6 =
      { s with temperature := { s.temperature with low := fieldUpd parsePyInt s.temperature.low (values.get? 6) } } := by
  cases h : values[6]? with
  | none => simp [applyOne, fieldUpd, h]
  | some v =>
    cases hp : parsePyInt v with
    | none => simp [applyOne, statusUpdateApply, fieldUpd, h, hp]
    | some n => simp [applyOne, statusUpdateApply, fieldUpd, h, hp]

/-- Helper: table entry 7 updates only its own field, guarded per token. -/
theorem applyOne_7 (s : DroneStatus) (values : List String) :
    applyOne s values 7 =
      { s with temperature := { s.temperature with high := fieldUpd parsePyInt s.temperature.high (values.get? 7) } } := by
  cases h : values[7]? with
  | none => simp [applyOne, fieldUpd, h]
  | some v =>
    cases hp : parsePyInt v with
    | none => simp [applyOne, statusUpdateApply, fieldUpd, h, hp]
    | some n => simp [applyOne, statusUpdateApply, fieldUpd, h, hp]

/-- Helper: table entry 8 updates only its own field, guarded per token. -/
theorem applyOne_8 (s : DroneStatus) (values : List String) :
    applyOne s values 8 =
      { s with time_of_flight := fieldUpd parsePyInt s.time_of_flight (values.get? 8) } := by
  cases h : values[8]? with
  | none => simp [applyOne, fieldUpd, h]
  | some v =>
    cases hp : parsePyInt v with
    | none => simp [applyOne, statusUpdateApply, fieldUpd, h, hp]
    | some n => simp [applyOne, statusUpdateApply, fieldUpd, h, hp]

/-- Helper: table entry 9 updates only its own field, guarded per token. -/
theorem applyOne_9 (s : DroneStatus) (values : List String) :
    applyOne s values 9 =
      { s with altitude := fieldUpd parsePyInt s.altitude (values.get? 9) } := by
  cases h : values[9]? with
  | none => simp [applyOne, fieldUpd, h]
  | some v =>
    cases hp : parsePyInt v with
    | none => simp [applyOne, statusUpdateApply, fieldUpd, h, hp]
    | some n => simp [applyOne, statusUpdateApply, fieldUpd, h, hp]

/-- Helper: table entry 10 updates only its own field, guarded per token. -/
theorem applyOne_10 (s : DroneStatus) (values : List String) :
    applyOne s values 10 =
      { s with battery := fieldUpd parsePyInt s.battery (values.get? 10) } := by
  cases h : values[10]? with
  | none => simp [applyOne, fieldUpd, h]
  | some v =>
    cases hp : parsePyInt v with
    | none => simp [applyOne, statusUpdateApply, fieldUpd, h, hp]
    | some n => simp [applyOne, statusUpdateApply, fieldUpd, h, hp]

/-- Helper: table entry 11 updates only its own field, guarded per token. -/
theorem applyOne_11 (s : DroneStatus) (values : List String) :
    applyOne s values 11 =
      { s with barometric_pressure := fieldUpd parsePyFloat s.barometric_pressure (values.get? 11) } := by
  cases h : values[11]? with
  | none => simp [applyOne, fieldUpd, h]
  | some v =>
    cases hp : parsePyFloat v with
    | none => simp [applyOne, statusUpdateApply, fieldUpd, h, hp]
    | some n => simp [applyOne, statusUpdateApply, fieldUpd, h, hp]

/-- Helper: table entry 12 updates only its own field, guarded per token. -/
theorem applyOne_12 (s : DroneStatus) (values : List String) :
    applyOne s values 12 =
      { s with time := fieldUpd parsePyInt s.time (values.get? 12) } := by
  cases h : values[12]? with
  | none => simp [applyOne, fieldUpd, h]
  | some v =>
    cases hp : parsePyInt v with
    | none => simp [applyOne, statusUpdateApply, fieldUpd, h, hp]
    | some n => simp [applyOne, statusUpdateApply, fieldUpd, h, hp]

/-- Helper: table entry 13 updates only its own field, guarded per token. -/
theorem applyOne_13 (s : DroneStatus) (values : List String) :
    applyOne s values 13 =
      { s with acceleration := { s.acceleration with x := fieldUpd parsePyFloat s.acceleration.x (values.get? 13) } } := by
  cases h : values[13]? with
  | none => simp [applyOne, fieldUpd, h]
  | some v =>
    cases hp : parsePyFloat v with
    | none => simp [applyOne, statusUpdateApply, fieldUpd, h, hp]
    | some n => simp [applyOne, statusUpdateApply, fieldUpd, h, hp]

/-- Helper: table entry 14 updates only its own field, guarded per token. -/
theorem applyOne_14 (s : DroneStatus) (values : List String) :
    applyOne s values 14 =
      { s with acceleration := { s.acceleration with y := fieldUpd parsePyFloat s.acceleration.y (values.get? 14) } } := by
  cases h : values[14]? with
  | none => simp [applyOne, fieldUpd, h]
  | some v =>
    cases hp : parsePyFloat v with
    | none => simp [applyOne, statusUpdateApply, fieldUpd, h, hp]
    | some n => simp [applyOne, statusUpdateApply, fieldUpd, h, hp]

/-- Helper: table entry 15 updates only its own field, guarded per token. -/
theorem applyOne_15 (s : DroneStatus) (values : List String) :
    applyOne s values 15 =
      { s with acceleration := { s.acceleration with z := fieldUpd parsePyFloat s.acceleration.z (values.get? 15) } } := by
  cases h : values[15]? with
  | none => simp [applyOne, fieldUpd, h]
  | some v =>
    cases hp : parsePyFloat v with
    | none => simp [applyOne, statusUpdateApply, fieldUpd, h, hp]
    | some n => simp [applyOne, statusUpdateApply, fieldUpd, h, hp]

/-- Helper: full characterization of one pass of the STATUS_UPDATES table:
every field of the result is the guarded parse of its own token, and the
fields outside the table (speed, state) are untouched. -/
theorem applyStatusUpdates_char (s : DroneStatus) (values : List String) :
    applyStatusUpdates s values =
      { velocity := { x := fieldUpd parsePyFloat s.velocity.x (values.get? 3),
                      y := fieldUpd parsePyFloat s.velocity.y (values.get? 4),
                      z := fieldUpd parsePyFloat s.velocity.z (values.get? 5) },
        acceleration :=
          { x := fieldUpd parsePyFloat s.acceleration.x (values.get? 13),
            y := fieldUpd parsePyFloat s.acceleration.y (values.get? 14),
            z := fieldUpd parsePyFloat s.acceleration.z (values.get? 15) },
        temperature :=
          { low := fieldUpd parsePyInt s.temperature.low (values.get? 6),
            high := fieldUpd parsePyInt s.temperature.high (values.get? 7) },
        pitch := fieldUpd parsePyInt s.pitch (values.get? 0),
        roll := fieldUpd parsePyInt s.roll (values.get? 1),
        yaw := fieldUpd parsePyInt s.yaw (values.get? 2),
        altitude := fieldUpd parsePyInt s.altitude (values.get? 9),
        barometric_pressure :=
          fieldUpd parsePyFloat s.barometric_pressure (values.get? 11),
        time_of_flight := fieldUpd parsePyInt s.time_of_flight (values.get? 8),
        time := fieldUpd parsePyInt s.time (values.get? 12),
        battery := fieldUpd parsePyInt s.battery (values.get? 10),
        speed := s.speed,
        state := s.state } := by
  unfold applyStatusUpdates
  dsimp only
  rw [applyOne_0, applyOne_1, applyOne_2, applyOne_3, applyOne_4, applyOne_5,
    applyOne_6, applyOne_7, applyOne_8, applyOne_9, applyOne_10, applyOne_11,
    applyOne_12, applyOne_13, applyOne_14, applyOne_15]

/-- Claim C8: for every telemetry datagram, each token that parses
successfully overwrites exactly its own DroneStatus field, and a parse
failure on any one token leaves that field unchanged without preventing the
remaining tokens of the same datagram from being parsed and applied: the
final value of every field depends only on its own token, and the fields
outside the table are untouched. -/
theorem status_field_isolation (s : DroneStatus) (raw : String) :
    (statusDatagramUpdate s raw).pitch =
      fieldUpd parsePyInt s.pitch ((extractStatusValues raw).get? 0) ∧
    (statusDatagramUpdate s raw).roll =
      fieldUpd parsePyInt s.roll ((extractStatusValues raw).get? 1) ∧
    (statusDatagramUpdate s raw).yaw =
      fieldUpd parsePyInt s.yaw ((extractStatusValues raw).get? 2) ∧
    (statusDatagramUpdate s raw).velocity.x =
      fieldUpd parsePyFloat s.velocity.x ((extractStatusValues raw).get? 3) ∧
    (statusDatagramUpdate s raw).velocity.y =
      fieldUpd parsePyFloat s.velocity.y ((extractStatusValues raw).get? 4) ∧
    (statusDatagramUpdate s raw).velocity.z =
      fieldUpd parsePyFloat s.velocity.z ((extractStatusValues raw).get? 5) ∧
    (statusDatagramUpdate s raw).temperature.low =
      fieldUpd parsePyInt s.temperature.low ((extractStatusValues raw).get? 6) ∧
    (statusDatagramUpdate s raw).temperature.high =
      fieldUpd parsePyInt s.temperature.high ((extractStatusValues raw).get? 7) ∧
    (statusDatagramUpdate s raw).time_of_flight =
      fieldUpd parsePyInt s.time_of_flight ((extractStatusValues raw).get? 8) ∧
    (statusDatagramUpdate s raw).altitude =
      fieldUpd parsePyInt s.altitude ((extractStatusValues raw).get? 9) ∧
    (statusDatagramUpdate s raw).battery =
      fieldUpd parsePyInt s.battery ((extractStatusValues raw).get? 10) ∧
    (statusDatagramUpdate s raw).barometric_pressure =
      fieldUpd parsePyFloat s.barometric_pressure
        ((extractStatusValues raw).get? 11) ∧
    (statusDatagramUpdate s raw).time =
      fieldUpd parsePyInt s.time ((extractStatusValues raw).get? 12) ∧
    (statusDatagramUpdate s raw).acceleration.x =
      fieldUpd parsePyFloat s.acceleration.x ((extractStatusValues raw).get? 13) ∧
    (statusDatagramUpdate s raw).acceleration.y =
      fieldUpd parsePyFloat s.acceleration.y ((extractStatusValues raw).get? 14) ∧
    (statusDatagramUpdate s raw).acceleration.z =
      fieldUpd parsePyFloat s.acceleration.z ((extractStatusValues raw).get? 15) ∧
    (statusDatagramUpdate s raw).speed = s.speed ∧
    (statusDatagramUpdate s raw).state = s.state := by
  simp [statusDatagramUpdate, applyStatusUpdates_char]
